import Mathlib

/-
Verification of the book-management service (task_01.py): record schema,
validator, converter, repository and report builder, modelled as a shallow
embedding.  Python dictionaries holding one raw book record become
association lists from field names to `PyVal`; numeric Python values
(int, float, Decimal) are modelled at the value level by Int and Rat;
code that can raise (KeyError, ValueError at construction) returns
`Except String`.
-/

set_option autoImplicit false

deriving instance DecidableEq for Except

/-- Python scalar values that can occur in a raw book record: text,
integer, float and Decimal.  The two floating constructors carry the
exact rational value of the number. -/
inductive PyVal where
  | str (s : String)
  | int (n : Int)
  | float (q : Rat)
  | dec (q : Rat)
deriving DecidableEq

/-- Python truthiness of a record value: empty text and the number zero
are falsy, everything else is truthy. -/
def PyVal.truthy : PyVal → Bool
  | .str s => decide (s ≠ "")
  | .int n => decide (n ≠ 0)
  | .float q => decide (q ≠ 0)
  | .dec q => decide (q ≠ 0)

/-- Python float(n) of a numeric value, at the value level (exact; in
particular it preserves the sign of the argument, which is all the
validator uses it for).  The text case is unreachable under the source
type annotation int | float | Decimal. -/
def PyVal.pyfloat : PyVal → Rat
  | .str _ => 0
  | .int n => (n : Rat)
  | .float q => q
  | .dec q => q

/-- BookData from the source: one raw record, a mapping from field name
to loosely typed value. -/
abbrev BookData := List (String × PyVal)

/-- Python subscript data[k] on a record: the value at the key, or a
KeyError when the key is absent. -/
def dataGet (d : BookData) (k : String) : Except String PyVal :=
  match d with
  | [] => .error ("KeyError: " ++ k)
  | (k2, v) :: rest => if k2 = k then .ok v else dataGet rest k

/-- The test `field not in data or not data[field]` from the validator
loop: the field is absent, or present with a falsy value. -/
def fieldMissing (d : BookData) (f : String) : Bool :=
  match dataGet d f with
  | .error _ => true
  | .ok v => !v.truthy

/-- BookCategory enumeration from the source. -/
inductive BookCategory where
  | UNKNOWN
  | FICTION
  | NON_FICTION
  | SCIENCE
  | FANTASY
  | SELF_HELP
deriving DecidableEq

/-- Member values of BookCategory, the display labels. -/
def BookCategory.value : BookCategory → String
  | .UNKNOWN => "Unknown"
  | .FICTION => "Fiction"
  | .NON_FICTION => "Non-fiction"
  | .SCIENCE => "Science"
  | .FANTASY => "Fantasy"
  | .SELF_HELP => "Self-help"

/-- Member names of BookCategory, as Python `.name` yields them. -/
def BookCategory.name : BookCategory → String
  | .UNKNOWN => "UNKNOWN"
  | .FICTION => "FICTION"
  | .NON_FICTION => "NON_FICTION"
  | .SCIENCE => "SCIENCE"
  | .FANTASY => "FANTASY"
  | .SELF_HELP => "SELF_HELP"

/-- Members of the enumeration in declaration order (Python iteration
order over the enum). -/
def BookCategory.members : List BookCategory :=
  [.UNKNOWN, .FICTION, .NON_FICTION, .SCIENCE, .FANTASY, .SELF_HELP]

/-- The list `[c.value for c in BookCategory]` used by the validator. -/
def BookCategory.labels : List String := BookCategory.members.map BookCategory.value

/-- Enum lookup by value, `BookCategory(x)`: the member whose value
equals x, or none when the call would raise ValueError. -/
def categoryOfValue (v : PyVal) : Option BookCategory :=
  match v with
  | .str s => BookCategory.members.find? (fun c => c.value = s)
  | _ => none

/-- Python str of a Decimal or float value.  The value-level model does
not track the Decimal exponent or the float shortest-repr algorithm, so
the text is rendered from the reduced rational; no claim below depends
on this text, only on its being text. -/
def decimalStr (q : Rat) : String := toString q

/-- Python str(x) applied to a record value. -/
def pyStr : PyVal → String
  | .str s => s
  | .int n => toString n
  | .float q => decimalStr q
  | .dec q => decimalStr q

/-- Book entity from the source. -/
structure Book where
  title : String
  desc : String
  author : String
  year : Int
  pages : Int
  price : Rat := 0
  category : BookCategory := .UNKNOWN
deriving DecidableEq

/-- Book.has_category from the source. -/
def Book.has_category (b : Book) (category : BookCategory) : Bool :=
  decide (b.category = category)

/-- Book.is_betweeen from the source (sic): inclusive year-range test. -/
def Book.is_betweeen (b : Book) (from_year to_year : Int) : Bool :=
  decide (from_year ≤ b.year) && decide (b.year ≤ to_year)

/-- Book.to_dict from the source: every field rendered as text, with the
category rendered by its member NAME, not its value label. -/
def Book.to_dict (b : Book) : BookData :=
  [ ("title", .str b.title)
  , ("desc", .str b.desc)
  , ("author", .str b.author)
  , ("year", .str (toString b.year))
  , ("pages", .str (toString b.pages))
  , ("price", .str (decimalStr b.price))
  , ("category", .str b.category.name) ]

/-- Validator.is_possitive_number from the source (sic):
float(n) > 0.0. -/
def Validator.is_possitive_number (n : PyVal) : Bool :=
  decide ((0 : Rat) < n.pyfloat)

/-- Validator.is_between from the source: left <= n <= right. -/
def Validator.is_between (n left right : Int) : Bool :=
  decide (left ≤ n) && decide (n ≤ right)

/-- The isinstance(x, (Decimal, float, int)) test on a record value. -/
def isNumericVal : PyVal → Bool
  | .str _ => false
  | .int _ => true
  | .float _ => true
  | .dec _ => true

/-- The membership test `data[category] in [c.value for c in
BookCategory]`: true exactly when the value is one of the six labels. -/
def isValidCategoryVal : PyVal → Bool
  | .str s => BookCategory.labels.contains s
  | _ => false

/-- The validate_fields list of BookValidator.validate. -/
def validate_fields : List String :=
  ["title", "desc", "author", "year", "pages", "price", "category"]

/-- One iteration of the loop body of BookValidator.validate for field f,
translated check for check in source order.  Note the source indexes
data[year], data[pages], data[price] and data[category] directly inside
every iteration, so a missing key there raises KeyError (modelled as
`.error`); `.ok false` is an early `return False`, `.ok true` means the
iteration fell through all checks. -/
def checkOnce (d : BookData) (f : String) : Except String Bool :=
  if fieldMissing d f then .ok false
  else
    match dataGet d "year" with
    | .error e => .error e
    | .ok yv =>
      match yv with
      | .int y =>
        if !(Validator.is_between y 1900 2025) then .ok false
        else
          match dataGet d "pages" with
          | .error e => .error e
          | .ok pv =>
            match pv with
            | .int p =>
              if !(Validator.is_possitive_number (.int p)) then .ok false
              else
                match dataGet d "price" with
                | .error e => .error e
                | .ok prv =>
                  if !(isNumericVal prv) then .ok false
                  else if !(Validator.is_possitive_number prv) then .ok false
                  else
                    match dataGet d "category" with
                    | .error e => .error e
                    | .ok cv =>
                      if !(isValidCategoryVal cv) then .ok false else .ok true
            | _ => .ok false
      | _ => .ok false

/-- The `for field in validate_fields` loop of BookValidator.validate:
runs the loop body per field, stopping at the first early False or
KeyError; falls out with True. -/
def validateLoop (d : BookData) : List String → Except String Bool
  | [] => .ok true
  | f :: rest =>
    match checkOnce d f with
    | .error e => .error e
    | .ok false => .ok false
    | .ok true => validateLoop d rest

/-- BookValidator.validate from the source. -/
def BookValidator.validate (d : BookData) : Except String Bool :=
  validateLoop d validate_fields

/-- Truncation toward zero of a rational, the behaviour of Python int()
on a float or Decimal. -/
def ratTrunc (q : Rat) : Int :=
  if 0 ≤ q then q.floor else q.ceil

/-- Python int(x) on a record value: identity on ints, truncation on
floats and Decimals, digit parsing on text (ValueError on
non-numeric text; exotic accepted forms such as surrounding
whitespace are not modelled, no claim exercises them). -/
def pyIntCoerce : PyVal → Except String Int
  | .int n => .ok n
  | .float q => .ok (ratTrunc q)
  | .dec q => .ok (ratTrunc q)
  | .str s =>
    match s.toInt? with
    | some n => .ok n
    | none => .error "ValueError: invalid literal for int"

/-- Value of a digit run, none when some character is not a digit or
the run is empty. -/
def digitsVal (cs : List Char) : Option Nat :=
  match cs with
  | [] => none
  | _ => cs.foldlM (fun acc c => if c.isDigit then some (10 * acc + (c.toNat - 48)) else none) 0

/-- Decimal(s) on plain fixed-point text: optional sign, digits,
optional fractional digits.  Scientific notation and degenerate forms
are not modelled; no claim feeds text to the Decimal constructor. -/
def parseDecimalStr (s : String) : Option Rat :=
  let core : String → Option Rat := fun body =>
    match body.splitOn "." with
    | [ip] => (digitsVal ip.toList).map (fun n => (n : Rat))
    | [ip, fp] => do
      let i ← digitsVal ip.toList
      let f ← digitsVal fp.toList
      some ((i : Rat) + (f : Rat) / ((10 : Rat) ^ fp.length))
    | _ => none
  if s.startsWith "-" then (core (s.drop 1)).map (fun q => -q)
  else core s

/-- Decimal(str(x)) as used by the converter for the price: exact value
for numeric inputs (going through the decimal text loses nothing at the
value level), fixed-point parsing for text. -/
def pyDecimalOfStr : PyVal → Except String Rat
  | .int n => .ok (n : Rat)
  | .float q => .ok q
  | .dec q => .ok q
  | .str s =>
    match parseDecimalStr s with
    | some q => .ok q
    | none => .error "InvalidOperation: invalid Decimal literal"

/-- BookConverter.from_json from the source: parses the category label,
falling back to UNKNOWN with a logged warning when BookCategory(x)
raises ValueError; then builds the Book with the scalar coercions of the
source, in source evaluation order.  KeyError on an absent field and
ValueError from int() are not caught and surface as `.error`. -/
def BookConverter.from_json (data : BookData) : Except String Book :=
  match dataGet data "category" with
  | .error e => .error e
  | .ok cv =>
    let category : BookCategory :=
      match categoryOfValue cv with
      | some c => c
      | none => .UNKNOWN
    match dataGet data "title" with
    | .error e => .error e
    | .ok tv =>
      match dataGet data "desc" with
      | .error e => .error e
      | .ok dv =>
        match dataGet data "author" with
        | .error e => .error e
        | .ok av =>
          match dataGet data "year" with
          | .error e => .error e
          | .ok yv =>
            match pyIntCoerce yv with
            | .error e => .error e
            | .ok y =>
              match dataGet data "pages" with
              | .error e => .error e
              | .ok pgv =>
                match pyIntCoerce pgv with
                | .error e => .error e
                | .ok pg =>
                  match dataGet data "price" with
                  | .error e => .error e
                  | .ok prv =>
                    match pyDecimalOfStr prv with
                    | .error e => .error e
                    | .ok pr =>
                      .ok { title := pyStr tv, desc := pyStr dv, author := pyStr av
                          , year := y, pages := pg, price := pr, category := category }

/-- BookConverter.to_json from the source: the raw form of a Book, with
year and pages as integers, price as a float (value-level exact) and the
category as its display label. -/
def BookConverter.to_json (data : Book) : BookData :=
  [ ("title", .str data.title)
  , ("desc", .str data.desc)
  , ("author", .str data.author)
  , ("year", .int data.year)
  , ("pages", .int data.pages)
  , ("price", .float data.price)
  , ("category", .str data.category.value) ]

/-- State of a BookRepository after construction.  The service fields of
the dataclass are the fixed concrete implementations (BookValidator,
BookConverter); the read service is passed to the construction function
instead of being stored, so that repository states stay comparable. -/
structure BookRepository where
  file_name : String
  books : List Book
deriving DecidableEq

/-- BookRepository._process_data from the source: per raw entry, run the
validator; on True convert and append (a dataclass instance is always
truthy, so the inner `if book` keeps every converted book); on False
drop the entry with a logged error.  An exception from the validator or
the converter propagates. -/
def BookRepository._process_data : List BookData → Except String (List Book)
  | [] => .ok []
  | entry :: rest =>
    match BookValidator.validate entry with
    | .error e => .error e
    | .ok true =>
      match BookConverter.from_json entry with
      | .error e => .error e
      | .ok book =>
        match BookRepository._process_data rest with
        | .error e => .error e
        | .ok books => .ok (book :: books)
    | .ok false => BookRepository._process_data rest

/-- BookRepository.load_book from the source: a missing argument falls
back to the stored default name (via str, with a logged warning), then
the read service supplies the raw records and _process_data filters and
converts them. -/
def BookRepository.load_book (read : String → List BookData)
    (default_name : String) (file_name : Option String) : Except String (List Book) :=
  let fn : String :=
    match file_name with
    | none => default_name
    | some f => f
  BookRepository._process_data (read fn)

/-- Construction of a BookRepository: dataclass init followed by
__post_init__, which raises ValueError when no file name was given and
otherwise immediately performs load_book(). -/
def mkBookRepository (read : String → List BookData)
    (file_name : Option String) : Except String BookRepository :=
  match file_name with
  | none => .error "ValueError: Default file name not set"
  | some fn =>
    match BookRepository.load_book read fn none with
    | .error e => .error e
    | .ok bs => .ok { file_name := fn, books := bs }

/-- BookRepository.get_books from the source: returns the cached list
(logging a note when it is empty). -/
def BookRepository.get_books (r : BookRepository) : List Book :=
  r.books

/-- LibraryService.filter_books from the source. -/
def LibraryService.filter_books (r : BookRepository) (condition_fn : Book → Bool) : List Book :=
  (r.get_books).filter condition_fn

/-- LibraryService.filter_books_category from the source. -/
def LibraryService.filter_books_category (r : BookRepository) (category : BookCategory) : List Book :=
  LibraryService.filter_books r (fun book => book.has_category category)

/-- LibraryService.count_books_year_range from the source. -/
def LibraryService.count_books_year_range (r : BookRepository) (year_from year_to : Int) : Nat :=
  (LibraryService.filter_books r (fun book => book.is_betweeen year_from year_to)).length

/-- Python range(start, stop, step) for a positive step. -/
def pyRange (start stop step : Int) : List Int :=
  (List.range (((stop - start + step - 1) / step).toNat)).map (fun i => start + step * i)

/-- Output of ReportService.get_report_on_console, as data: first the
per-category section (category then its books, in enum order), then one
line per year window with its inclusive count. -/
structure ConsoleReport where
  category_lines : List (BookCategory × List Book)
  year_lines : List (Int × Int × Nat)
deriving DecidableEq

/-- ReportService.get_report_on_console from the source: category
section over the enum members, then windows from range(2000, 2025, 5)
with end_year = start_year + 10. -/
def ReportService.get_report_on_console (r : BookRepository) : ConsoleReport :=
  { category_lines :=
      BookCategory.members.map (fun c => (c, LibraryService.filter_books_category r c))
  , year_lines :=
      (pyRange 2000 2025 5).map
        (fun s => (s, s + 10, LibraryService.count_books_year_range r s (s + 10))) }

/-- Payload handed to the writer by ReportService.get_report_file:
categories mapping each member NAME to the to_dict serialization of its
books, and years mapping a start-end label (end_year = start_year + 9)
to the inclusive count. -/
structure FileReport where
  categories : List (String × List BookData)
  years : List (String × Nat)
deriving DecidableEq

/-- ReportService.get_report_file from the source (the data it gives the
write service). -/
def ReportService.get_report_file (r : BookRepository) : FileReport :=
  { categories :=
      BookCategory.members.map
        (fun c => (c.name, (LibraryService.filter_books_category r c).map Book.to_dict))
  , years :=
      (pyRange 2000 2025 5).map
        (fun s => (toString s ++ "-" ++ toString (s + 9),
                   LibraryService.count_books_year_range r s (s + 9))) }

/-- Record shape used for parametric statements about the validator: the
seven required fields in wire order, with the given values. -/
def mkRecord (tv dv av yv pgv prv cv : PyVal) : BookData :=
  [ ("title", tv), ("desc", dv), ("author", av), ("year", yv)
  , ("pages", pgv), ("price", prv), ("category", cv) ]

/-- First record of the two-record scenario of the spec: book A,
year 2010, price 9.99 (a float in the wire form). -/
def recA : BookData :=
  mkRecord (.str "A") (.str "d") (.str "x") (.int 2010) (.int 100)
    (.float (mkRat 999 100)) (.str "Science")

/-- Second record of the two-record scenario of the spec: book B with
the out-of-range year 1800. -/
def recB : BookData :=
  mkRecord (.str "B") (.str "d2") (.str "y") (.int 1800) (.int 50)
    (.int 5) (.str "Fiction")

/-- The Book produced from recA by the converter. -/
def bookA : Book :=
  { title := "A", desc := "d", author := "x", year := 2010, pages := 100
  , price := mkRat 999 100, category := .SCIENCE }

/-- A read service delivering the two-record scenario for any name. -/
def demoRead : String → List BookData := fun _ => [recA, recB]

/-- Round-trip core: converting a Book to its raw form and back yields
the same Book (in the value-level model the price survives exactly; the
claims only rely on the non-price fields). -/
theorem BookConverter.from_json_to_json (b : Book) :
    BookConverter.from_json (BookConverter.to_json b) = .ok b := by
  obtain ⟨t, ds, a, y, p, pr, c⟩ := b
  cases c <;> rfl

/-- C1: the claim says validate returns false, without raising, whenever
a required field is absent or falsy.  The code contradicts this: with
title present and truthy, the loop body immediately indexes data[year],
so the record with only a title makes validate raise KeyError instead of
returning False. -/
theorem validate_keyError_on_missing_required_field :
    BookValidator.validate [("title", PyVal.str "A")] = .error "KeyError: year"
    ∧ (Except.error "KeyError: year" : Except String Bool) ≠ .ok false := by
  exact ⟨rfl, by decide⟩

/-- C2: for every repository state, the console report prints the five
windows with start years 2000, 2005, 2010, 2015, 2020 and end year
start + 10, while the file report uses end year start + 9 under the
label start-end; both count books over the inclusive year range. -/
theorem report_year_windows_console_vs_file (r : BookRepository) :
    (ReportService.get_report_on_console r).year_lines =
      [2000, 2005, 2010, 2015, 2020].map
        (fun s => (s, s + 10,
          (r.books.filter (fun bk => decide (s ≤ bk.year) && decide (bk.year ≤ s + 10))).length))
    ∧ (ReportService.get_report_file r).years =
      [2000, 2005, 2010, 2015, 2020].map
        (fun s => (toString s ++ "-" ++ toString (s + 9),
          (r.books.filter (fun bk => decide (s ≤ bk.year) && decide (bk.year ≤ s + 9))).length)) :=
  ⟨rfl, rfl⟩

/-- C3, counterexample: on a repository holding one Science book, the
file report lists the book as Book.to_dict renders it, and that
rendering differs from the raw form of BookConverter.to_json (the
to_dict form stringifies year, pages and price, and uses the category
member name instead of its display label). -/
theorem file_report_not_raw_form_counterexample :
    (ReportService.get_report_file { file_name := "Report.json", books := [bookA] }).categories.lookup "SCIENCE"
        = some [Book.to_dict bookA]
    ∧ Book.to_dict bookA ≠ BookConverter.to_json bookA := by
  refine ⟨rfl, ?_⟩
  decide

/-- C3, amended: in the file report each book listed under its category
NAME is serialized via Book.to_dict (title, desc, author as text, year,
pages and price as their textual renderings, category as the enum member
name), not via the raw form of the converter. -/
theorem file_report_uses_to_dict (r : BookRepository) :
    (ReportService.get_report_file r).categories =
      BookCategory.members.map
        (fun c => (c.name, (r.books.filter (fun bk => decide (bk.category = c))).map Book.to_dict)) :=
  rfl

/-- C4: converting a Book to the raw form and back yields a Book whose
title, desc, author, year, pages and category agree with the original
(the category label round-trips exactly through its display value). -/
theorem from_json_to_json_round_trip (b : Book) :
    ∃ b2 : Book, BookConverter.from_json (BookConverter.to_json b) = .ok b2
      ∧ b2.title = b.title ∧ b2.desc = b.desc ∧ b2.author = b.author
      ∧ b2.year = b.year ∧ b2.pages = b.pages ∧ b2.category = b.category :=
  ⟨b, BookConverter.from_json_to_json b, rfl, rfl, rfl, rfl, rfl, rfl⟩

/-- C9: constructing a BookRepository without a file name fails at
construction itself with ValueError, whatever read service is wired in;
the failure is not deferred to a later call. -/
theorem repository_requires_file_name (read : String → List BookData) :
    mkBookRepository read none = .error "ValueError: Default file name not set" :=
  rfl

/-- C10: a successfully constructed repository has already loaded its
file: get_books returns exactly the validated-and-converted contents of
the file read during construction, before any explicit load call. -/
theorem post_init_performs_load (read : String → List BookData) (fn : String)
    (repo : BookRepository) (h : mkBookRepository read (some fn) = .ok repo) :
    Except.ok repo.get_books = BookRepository._process_data (read fn) := by
  have h2 : (match BookRepository._process_data (read fn) with
    | .error e => (.error e : Except String BookRepository)
    | .ok bs => .ok { file_name := fn, books := bs }) = .ok repo := h
  rcases hp : BookRepository._process_data (read fn) with e | bs
  · rw [hp] at h2; cases h2
  · rw [hp] at h2; cases h2; rfl

/-- C10, witness: the constructed repository over the two-record demo
file exposes exactly the one validated book. -/
theorem post_init_performs_load_witness :
    Except.ok (BookRepository.get_books { file_name := "books.json", books := [bookA] })
      = BookRepository._process_data (demoRead "books.json") :=
  post_init_performs_load demoRead "books.json"
    { file_name := "books.json", books := [bookA] } rfl

/-- C5: for every raw record whose seven fields are present and whose
scalar coercions succeed, an unrecognized category value makes from_json
substitute UNKNOWN (after the logged warning) and still build the Book
from the remaining fields. -/
theorem from_json_unknown_category_defaults (d : BookData)
    (cv tv dv av yv pgv prv : PyVal) (y p : Int) (pr : Rat)
    (hcv : dataGet d "category" = .ok cv) (hc : categoryOfValue cv = none)
    (ht : dataGet d "title" = .ok tv) (hdv : dataGet d "desc" = .ok dv)
    (ha : dataGet d "author" = .ok av)
    (hy : dataGet d "year" = .ok yv) (hyc : pyIntCoerce yv = .ok y)
    (hpg : dataGet d "pages" = .ok pgv) (hpgc : pyIntCoerce pgv = .ok p)
    (hpr : dataGet d "price" = .ok prv) (hprc : pyDecimalOfStr prv = .ok pr) :
    BookConverter.from_json d =
      .ok { title := pyStr tv, desc := pyStr dv, author := pyStr av
          , year := y, pages := p, price := pr, category := .UNKNOWN } := by
  simp only [BookConverter.from_json, hcv, hc, ht, hdv, ha, hy, hyc, hpg, hpgc, hpr, hprc]

/-- An otherwise-valid record carrying the unknown category label
Mystery, the scenario of the spec. -/
def recMystery : BookData :=
  mkRecord (.str "A") (.str "d") (.str "x") (.int 2010) (.int 100)
    (.dec (mkRat 999 100)) (.str "Mystery")

/-- C5, witness: the Mystery record converts to a Book with category
UNKNOWN and all other fields taken from the record. -/
theorem from_json_unknown_category_defaults_witness :
    BookConverter.from_json recMystery =
      .ok { title := "A", desc := "d", author := "x", year := 2010, pages := 100
          , price := mkRat 999 100, category := .UNKNOWN } :=
  (from_json_unknown_category_defaults recMystery
    (.str "Mystery") (.str "A") (.str "d") (.str "x") (.int 2010) (.int 100)
    (.dec (mkRat 999 100)) 2010 100 (mkRat 999 100)
    rfl rfl rfl rfl rfl rfl rfl rfl rfl rfl rfl).trans rfl

/-- C7: on a record whose other six fields are valid (non-empty texts,
positive pages and price, a valid category label), validate returns true
exactly when the year value is an integer between 1900 and 2025
inclusive, and false for every other year value, including
numeric-looking text. -/
theorem validate_year_boundary (t ds a : String) (p : Int) (pr : Rat) (c : String) (yv : PyVal)
    (ht : t ≠ "") (hds : ds ≠ "") (ha : a ≠ "") (hp : 0 < p) (hpr : 0 < pr)
    (hc : BookCategory.labels.contains c = true) :
    BookValidator.validate (mkRecord (.str t) (.str ds) (.str a) yv (.int p) (.dec pr) (.str c)) =
      .ok (match yv with
           | .int y => decide (1900 ≤ y ∧ y ≤ 2025)
           | _ => false) := by
  have hp0 : p ≠ 0 := by omega
  have hpr0 : pr ≠ 0 := ne_of_gt hpr
  have hc0 : c ≠ "" := by
    simp [BookCategory.labels, BookCategory.members, BookCategory.value] at hc
    rcases hc with rfl | rfl | rfl | rfl | rfl | rfl <;> decide
  cases yv with
  | int y =>
    have hy0 : (1900 ≤ y ∧ y ≤ 2025) → y ≠ 0 := by omega
    by_cases h1 : 1900 ≤ y <;> by_cases h2 : y ≤ 2025 <;>
      simp_all [BookValidator.validate, validate_fields, validateLoop, checkOnce,
        fieldMissing, dataGet, mkRecord, PyVal.truthy, Validator.is_between,
        Validator.is_possitive_number, PyVal.pyfloat, isNumericVal, isValidCategoryVal,
        Int.cast_pos]
  | str s =>
    simp_all [BookValidator.validate, validate_fields, validateLoop, checkOnce,
      fieldMissing, dataGet, mkRecord, PyVal.truthy]
  | float q =>
    simp_all [BookValidator.validate, validate_fields, validateLoop, checkOnce,
      fieldMissing, dataGet, mkRecord, PyVal.truthy]
  | dec q =>
    simp_all [BookValidator.validate, validate_fields, validateLoop, checkOnce,
      fieldMissing, dataGet, mkRecord, PyVal.truthy]

/-- C7, witness: with valid other fields, the boundary year 1900 itself
passes validation. -/
theorem validate_year_boundary_witness :
    BookValidator.validate
        (mkRecord (.str "T") (.str "d") (.str "x") (.int 1900) (.int 100) (.dec 10) (.str "Science"))
      = .ok true :=
  (validate_year_boundary "T" "d" "x" 100 10 "Science" (.int 1900)
    (by decide) (by decide) (by decide) (by decide) (by norm_num) rfl).trans rfl

/-- C8, counterexample: the claim quantifies over every raw record with
price at most zero, but on the record with a truthy title, a negative
price and no year field, validate raises KeyError instead of returning
false, because the loop body indexes data[year] before ever reaching the
price check. -/
theorem validate_price_nonpositive_counterexample :
    BookValidator.validate [("title", PyVal.str "T"), ("price", PyVal.int (-5))]
        = .error "KeyError: year"
    ∧ (Except.error "KeyError: year" : Except String Bool) ≠ .ok false :=
  ⟨rfl, by decide⟩

/-- C8, amended: on every raw record whose year, pages and price fields
are present and whose price is numeric (integer, floating or decimal)
with value at most zero, validate returns false; the positivity check
compares the numeric value to zero generically via float conversion. -/
theorem validate_price_nonpositive_false (d : BookData) (yv pgv pv : PyVal)
    (hyv : dataGet d "year" = .ok yv) (hpgv : dataGet d "pages" = .ok pgv)
    (hpv : dataGet d "price" = .ok pv)
    (hnum : isNumericVal pv = true) (hle : pv.pyfloat ≤ 0) :
    BookValidator.validate d = .ok false := by
  have hpos : Validator.is_possitive_number pv = false := by
    simp [Validator.is_possitive_number, not_lt.mpr hle]
  have hco : checkOnce d "title" = .ok false := by
    unfold checkOnce
    cases hf : fieldMissing d "title"
    · rw [hyv]
      cases yv with
      | int y =>
        by_cases h1 : Validator.is_between y 1900 2025 = true
        · rw [hpgv]
          cases pgv with
          | int p =>
            by_cases h2 : Validator.is_possitive_number (.int p) = true
            · simp [h1, h2, hpv, hnum, hpos]
            · simp [Bool.not_eq_true] at h2
              simp [h1, h2]
          | str s => simp [h1]
          | float q => simp [h1]
          | dec q => simp [h1]
        · simp [Bool.not_eq_true] at h1
          simp [h1]
      | str s => simp
      | float q => simp
      | dec q => simp
    · simp
  unfold BookValidator.validate validate_fields validateLoop
  rw [hco]

/-- An all-fields-present record with an integer price of -1. -/
def recNegPrice : BookData :=
  mkRecord (.str "T") (.str "d") (.str "x") (.int 2000) (.int 10)
    (.int (-1)) (.str "Science")

/-- C8, witness: the record with price -1 is rejected with a plain
false, no exception. -/
theorem validate_price_nonpositive_false_witness :
    BookValidator.validate recNegPrice = .ok false :=
  validate_price_nonpositive_false recNegPrice (.int 2000) (.int 10) (.int (-1))
    rfl rfl rfl rfl (by norm_num [PyVal.pyfloat])

/-- Inversion of one validator loop step: a loop over f :: rest that
falls through with True passed the body at f and the loop over rest. -/
theorem validateLoop_cons_ok_true (d : BookData) (f : String) (rest : List String)
    (h : validateLoop d (f :: rest) = .ok true) :
    checkOnce d f = .ok true ∧ validateLoop d rest = .ok true := by
  unfold validateLoop at h
  rcases hc : checkOnce d f with e | b
  · rw [hc] at h; cases h
  · rw [hc] at h
    cases b
    · simp at h
    · exact ⟨rfl, h⟩

/-- Inversion of one loop body that fell through all checks: the field
under scrutiny is present, and year, pages, price and category are
present with year and pages integer-typed and price numeric. -/
theorem checkOnce_ok_true_inv (d : BookData) (f : String) (h : checkOnce d f = .ok true) :
    (∃ v, dataGet d f = .ok v)
    ∧ (∃ y : Int, dataGet d "year" = .ok (.int y))
    ∧ (∃ p : Int, dataGet d "pages" = .ok (.int p))
    ∧ (∃ pv, dataGet d "price" = .ok pv ∧ isNumericVal pv = true)
    ∧ (∃ cv, dataGet d "category" = .ok cv) := by
  unfold checkOnce at h
  by_cases hf : fieldMissing d f
  · simp [hf] at h
  · have hfv : ∃ v, dataGet d f = .ok v := by
      unfold fieldMissing at hf
      rcases hg : dataGet d f with e | v
      · rw [hg] at hf; simp at hf
      · exact ⟨v, rfl⟩
    rw [if_neg hf] at h
    rcases hy : dataGet d "year" with e | yv <;> simp only [hy] at h
    · cases h
    · cases yv with
      | int y =>
        by_cases hb : Validator.is_between y 1900 2025 = true
        case neg =>
          simp only [Bool.not_eq_true] at hb
          simp [hb] at h
        case pos =>
          simp only [hb, Bool.not_true, Bool.false_eq_true, if_false] at h
          rcases hpg : dataGet d "pages" with e | pgv <;> simp only [hpg] at h
          · cases h
          · cases pgv with
            | int p =>
              by_cases hpp : Validator.is_possitive_number (.int p) = true
              case neg =>
                simp only [Bool.not_eq_true] at hpp
                simp [hpp] at h
              case pos =>
                simp only [hpp, Bool.not_true, Bool.false_eq_true, if_false] at h
                rcases hpr : dataGet d "price" with e | pv <;> simp only [hpr] at h
                · cases h
                · by_cases hnum : isNumericVal pv = true
                  case neg =>
                    simp only [Bool.not_eq_true] at hnum
                    simp [hnum] at h
                  case pos =>
                    simp only [hnum, Bool.not_true, Bool.false_eq_true, if_false] at h
                    by_cases hpp2 : Validator.is_possitive_number pv = true
                    case neg =>
                      simp only [Bool.not_eq_true] at hpp2
                      simp [hpp2] at h
                    case pos =>
                      simp only [hpp2, Bool.not_true, Bool.false_eq_true, if_false] at h
                      rcases hcv : dataGet d "category" with e | cv <;> simp only [hcv] at h
                      · cases h
                      · exact ⟨hfv, ⟨y, rfl⟩, ⟨p, rfl⟩, ⟨pv, rfl, hnum⟩, ⟨cv, rfl⟩⟩
            | str s => simp at h
            | float q => simp at h
            | dec q => simp at h
      | str s => simp at h
      | float q => simp at h
      | dec q => simp at h

/-- Records that pass validation are always convertible: the converter
cannot fail on a record the validator accepted. -/
theorem from_json_ok_of_validate (d : BookData)
    (h : BookValidator.validate d = .ok true) :
    (BookConverter.from_json d).isOk = true := by
  unfold BookValidator.validate validate_fields at h
  obtain ⟨h1, h⟩ := validateLoop_cons_ok_true d "title" _ h
  obtain ⟨h2, h⟩ := validateLoop_cons_ok_true d "desc" _ h
  obtain ⟨h3, h⟩ := validateLoop_cons_ok_true d "author" _ h
  obtain ⟨⟨tv, htv⟩, ⟨y, hy⟩, ⟨p, hpg⟩, ⟨pv, hpr, hnum⟩, ⟨cv, hcv⟩⟩ :=
    checkOnce_ok_true_inv d "title" h1
  obtain ⟨⟨dv, hdv⟩, -, -, -, -⟩ := checkOnce_ok_true_inv d "desc" h2
  obtain ⟨⟨av, hav⟩, -, -, -, -⟩ := checkOnce_ok_true_inv d "author" h3
  cases pv with
  | str s => simp [isNumericVal] at hnum
  | int n =>
    simp only [BookConverter.from_json, hcv, htv, hdv, hav, hy, hpg, hpr, pyIntCoerce,
      pyDecimalOfStr, Except.isOk, Except.toBool]
  | float q =>
    simp only [BookConverter.from_json, hcv, htv, hdv, hav, hy, hpg, hpr, pyIntCoerce,
      pyDecimalOfStr, Except.isOk, Except.toBool]
  | dec q =>
    simp only [BookConverter.from_json, hcv, htv, hdv, hav, hy, hpg, hpr, pyIntCoerce,
      pyDecimalOfStr, Except.isOk, Except.toBool]

/-- C6, counterexample: on the one-record input whose record has only a
truthy title, the claim says the repository result is the empty list
(the record fails validation and is dropped), but _process_data
propagates the KeyError the validator raises instead of producing a
result at all. -/
theorem process_data_raises_counterexample :
    BookRepository._process_data [[("title", PyVal.str "B")]] = .error "KeyError: year"
    ∧ (Except.error "KeyError: year" : Except String (List Book)) ≠ .ok [] :=
  ⟨rfl, by decide⟩

/-- C6, amended: for every input sequence on which the validator returns
a boolean for each record (it does not raise), _process_data keeps
exactly the records that pass validation, converted, in input order;
dropped records appear nowhere in the result. -/
theorem process_data_keeps_valid_in_order (raw : List BookData)
    (h : ∀ d ∈ raw, (BookValidator.validate d).isOk = true) :
    BookRepository._process_data raw =
      .ok ((raw.filter (fun d => decide (BookValidator.validate d = .ok true))).filterMap
            (fun d => (BookConverter.from_json d).toOption)) := by
  induction raw with
  | nil => rfl
  | cons d rest ih =>
    have hd := h d (by simp)
    have hrest : ∀ e ∈ rest, (BookValidator.validate e).isOk = true :=
      fun e he => h e (by simp [he])
    rcases hv : BookValidator.validate d with e | b
    · rw [hv] at hd; simp [Except.isOk, Except.toBool] at hd
    · cases b
      · unfold BookRepository._process_data
        rw [hv, ih hrest]
        simp [List.filter_cons, hv]
      · have hok := from_json_ok_of_validate d hv
        rcases hfj : BookConverter.from_json d with e2 | bk
        · rw [hfj] at hok; simp [Except.isOk, Except.toBool] at hok
        · unfold BookRepository._process_data
          rw [hv, hfj, ih hrest]
          simp [List.filter_cons, hv, hfj, Except.toOption]

/-- C6, witness: the two-record scenario of the spec loads exactly the
one Book A; record B (year 1800) is dropped. -/
theorem process_data_keeps_valid_in_order_witness :
    BookRepository._process_data [recA, recB] = .ok [bookA] :=
  (process_data_keeps_valid_in_order [recA, recB]
    (by intro d hd
        simp only [List.mem_cons, List.not_mem_nil, or_false] at hd
        rcases hd with rfl | rfl <;> rfl)).trans rfl
